import Mathlib

/-!
Shallow embedding of the node-samples repository:
  - src/slides/snippets/test/helpers.js   (class Helpers)
  - src/chat/client-libraries/cloud/update-membership-user-cred.js

Remote calls are modelled by passing the remote response explicitly: each
helper method becomes a pure function from the helper state and the
response the remote service would deliver to (the list of RPC calls it
issues, the settlement of the returned promise, the new helper state).
Request payloads are Lean structures mirroring the JavaScript object
literals field by field.
-/

namespace GoogleSamples

/-- A JavaScript error value delivered to a callback or rejection handler. -/
structure JsError where
  message : String

/-- The authentication object built by `new GoogleAuth({scopes})`. -/
structure GoogleAuth where
  scopes : List String

/-- An API service handle as built by `google.drive`, `google.slides`,
`google.sheets`: the API name, the version and the auth it was given. -/
structure Service where
  api : String
  version : String
  auth : GoogleAuth

/-- The `Helpers` class state: three service handles fixed at construction
and the mutable `filesToDelete` list (helpers.js lines 28-41). -/
structure Helpers where
  driveService : Service
  slidesService : Service
  sheetsService : Service
  filesToDelete : List String

/-- The scopes requested in the `Helpers` constructor. -/
def helpersScopes : List String :=
  ["https://www.googleapis.com/auth/drive",
   "https://www.googleapis.com/auth/presentations",
   "https://www.googleapis.com/auth/spreadsheets"]

/-- `new Helpers()` (helpers.js constructor): builds the three services
and initializes `filesToDelete` to the empty list. -/
def Helpers.new : Helpers :=
  let auth : GoogleAuth := { scopes := helpersScopes }
  { driveService := { api := "drive", version := "v3", auth := auth }
  , slidesService := { api := "slides", version := "v1", auth := auth }
  , sheetsService := { api := "sheets", version := "v4", auth := auth }
  , filesToDelete := [] }

/-- `Helpers.reset()` (helpers.js line 47): `this.filesToDelete = []`. -/
def Helpers.reset (h : Helpers) : Helpers :=
  { h with filesToDelete := [] }

/-- `Helpers.deleteFileOnCleanup(id)` (helpers.js line 55):
`this.filesToDelete.push(id)`. -/
def Helpers.deleteFileOnCleanup (h : Helpers) (id : String) : Helpers :=
  { h with filesToDelete := h.filesToDelete ++ [id] }

/-- `presentations.create` request payload `{title: 'Test Preso'}`. -/
structure PresentationCreateRequest where
  title : String

/-- `slideLayoutReference: {predefinedLayout}`. -/
structure SlideLayoutReference where
  predefinedLayout : String

/-- A `createSlide` entry of a Slides batchUpdate request. -/
structure CreateSlideRequest where
  objectId : String
  slideLayoutReference : SlideLayoutReference

/-- A magnitude-unit pair such as `pt350` or `emu4M`. -/
structure Dimension where
  magnitude : Nat
  unit : String

/-- `size: {height, width}`. -/
structure Size where
  height : Dimension
  width : Dimension

/-- `transform: {scaleX, scaleY, translateX, translateY, unit}`. -/
structure Transform where
  scaleX : Nat
  scaleY : Nat
  translateX : Nat
  translateY : Nat
  unit : String

/-- `elementProperties: {pageObjectId, size, transform}`. -/
structure ElementProperties where
  pageObjectId : String
  size : Size
  transform : Transform

/-- A `createShape` entry of a Slides batchUpdate request. -/
structure CreateShapeRequest where
  objectId : String
  shapeType : String
  elementProperties : ElementProperties

/-- An `insertText` entry of a Slides batchUpdate request. -/
structure InsertTextRequest where
  objectId : String
  insertionIndex : Nat
  text : String

/-- A `createSheetsChart` entry of a Slides batchUpdate request. -/
structure CreateSheetsChartRequest where
  objectId : String
  spreadsheetId : String
  chartId : String
  linkingMode : String
  elementProperties : ElementProperties

/-- One entry of the `requests` array of a Slides batchUpdate. -/
inductive SlidesRequest where
  | createSlide (r : CreateSlideRequest)
  | createShape (r : CreateShapeRequest)
  | insertText (r : InsertTextRequest)
  | createSheetsChart (r : CreateSheetsChartRequest)

/-- `properties: {title}` of a spreadsheets.create request. -/
structure SpreadsheetProperties where
  title : String

/-- The `spreadsheets.create` argument `{resource: {properties}, fields}`. -/
structure SpreadsheetCreateRequest where
  properties : SpreadsheetProperties
  fields : String

/-- `range` of a repeatCell request. -/
structure GridRange where
  sheetId : Nat
  startRowIndex : Nat
  endRowIndex : Nat
  startColumnIndex : Nat
  endColumnIndex : Nat

/-- `userEnteredValue: {stringValue}`. -/
structure ExtendedValue where
  stringValue : String

/-- `cell: {userEnteredValue}`. -/
structure CellData where
  userEnteredValue : ExtendedValue

/-- A `repeatCell` entry of a Sheets batchUpdate request. -/
structure RepeatCellRequest where
  range : GridRange
  cell : CellData
  fields : String

/-- One entry of the `requests` array of a Sheets batchUpdate. -/
inductive SheetsRequest where
  | repeatCell (r : RepeatCellRequest)

/-- `membership: {name, role}` of the chat sample's request. -/
structure ChatMembershipBody where
  name : String
  role : String

/-- `updateMask: {paths}` of the chat sample's request. -/
structure UpdateMask where
  paths : List String

/-- The argument of `chatClient.updateMembership`. -/
structure UpdateMembershipRequest where
  membership : ChatMembershipBody
  updateMask : UpdateMask

/-- A remote procedure call issued by a script or helper method, with the
payload it carries. -/
inductive RpcCall where
  | presentationsCreate (req : PresentationCreateRequest)
  | presentationsBatchUpdate (presentationId : String) (requests : List SlidesRequest)
  | driveFilesDelete (fileId : String)
  | spreadsheetsCreate (req : SpreadsheetCreateRequest)
  | spreadsheetsBatchUpdate (spreadsheetId : String) (requests : List SheetsRequest)
  | chatUpdateMembership (req : UpdateMembershipRequest)

/-- `presentation.data` of a presentations.create response. -/
structure PresentationData where
  presentationId : String

/-- A presentations.create response. -/
structure PresentationResponse where
  data : PresentationData

/-- One entry of `response.data.replies` of a Slides batchUpdate response:
only the fields the code reads, each present only for the matching
request kind. -/
structure Reply where
  createShape : Option String
  createSheetsChart : Option String

/-- `response.data` of a Slides batchUpdate response. -/
structure BatchUpdateData where
  replies : List Reply

/-- A Slides batchUpdate response. -/
structure BatchUpdateResponse where
  data : BatchUpdateData

/-- `spreadsheet.data` of a spreadsheets.create response. -/
structure SpreadsheetData where
  spreadsheetId : String

/-- A spreadsheets.create response. -/
structure SpreadsheetResponse where
  data : SpreadsheetData

/-- A Sheets batchUpdate response (its content is ignored by the code). -/
structure SheetsBatchUpdateResponse where
  spreadsheetId : String

/-- The outcome of one invocation of a helper method: the RPC calls it
issued, the settlement of the promise it returned (`Except.error` models
rejection, `Except.ok` resolution), and the helper state afterwards. -/
structure MethodRun (α : Type) where
  calls : List RpcCall
  result : Except JsError α
  state : Helpers

/-- `Helpers.createTestPresentation()` (helpers.js lines 71-81): one
presentations.create call; on error rejects with that error, on success
records the new id for cleanup and resolves with
`presentation.data.presentationId`. -/
def Helpers.createTestPresentation (h : Helpers)
    (resp : Except JsError PresentationResponse) : MethodRun String :=
  { calls := [.presentationsCreate { title := "Test Preso" }]
  , result :=
      match resp with
      | .error err => .error err
      | .ok presentation => .ok presentation.data.presentationId
  , state :=
      match resp with
      | .error _ => h
      | .ok presentation => h.deleteFileOnCleanup presentation.data.presentationId }

/-- The `slideIds` array built by the loop in `Helpers.addSlides`
(helpers.js lines 92-104): the loop pushes one id per iteration for
i = 0 .. num-1. -/
def slideIdsUpTo (num : Nat) : List String :=
  (List.range num).map (fun i => "slide_" ++ toString i)

/-- The `requests` array built by the same loop: one `createSlide` entry
per iteration, with the id just pushed as its objectId. -/
def createSlideRequests (num : Nat) (predefinedLayout : String) : List SlidesRequest :=
  (List.range num).map (fun i =>
    .createSlide { objectId := "slide_" ++ toString i
                 , slideLayoutReference := { predefinedLayout := predefinedLayout } })

/-- `Helpers.addSlides(presentationId, num, predefinedLayout)` (helpers.js
lines 90-115): one presentations.batchUpdate call; on error rejects with
that error, on success resolves with `slideIds` (the response is not
read). -/
def Helpers.addSlides (h : Helpers) (presentationId : String) (num : Nat)
    (predefinedLayout : String) (resp : Except JsError BatchUpdateResponse) :
    MethodRun (List String) :=
  { calls := [.presentationsBatchUpdate presentationId
      (createSlideRequests num predefinedLayout)]
  , result :=
      match resp with
      | .error err => .error err
      | .ok _ => .ok (slideIdsUpTo num)
  , state := h }

/-- `pt350` (helpers.js lines 126-129). -/
def pt350 : Dimension := { magnitude := 350, unit := "PT" }

/-- The two-element `requests` array of `createTestTextbox` (helpers.js
lines 130-155): a createShape and an insertText, both on `boxId`. -/
def textboxRequests (pageObjectId : String) : List SlidesRequest :=
  [ .createShape
      { objectId := "MyTextBox_01"
      , shapeType := "TEXT_BOX"
      , elementProperties :=
          { pageObjectId := pageObjectId
          , size := { height := pt350, width := pt350 }
          , transform :=
              { scaleX := 1, scaleY := 1
              , translateX := 350, translateY := 100, unit := "PT" } } }
  , .insertText
      { objectId := "MyTextBox_01", insertionIndex := 0
      , text := "New Box Text Inserted" } ]

/-- `Helpers.createTestTextbox(presentationId, pageObjectId)` (helpers.js
lines 123-166): one presentations.batchUpdate call; on error rejects
with it, on success resolves with
`createTextboxResponse.data.replies[0].createShape.objectId` (modelled as
an Option lookup along that path). -/
def Helpers.createTestTextbox (h : Helpers) (presentationId : String)
    (pageObjectId : String) (resp : Except JsError BatchUpdateResponse) :
    MethodRun (Option String) :=
  { calls := [.presentationsBatchUpdate presentationId (textboxRequests pageObjectId)]
  , result :=
      match resp with
      | .error err => .error err
      | .ok r => .ok (r.data.replies.head?.bind (fun rep => rep.createShape))
  , state := h }

/-- `emu4M` (helpers.js lines 179-182). -/
def emu4M : Dimension := { magnitude := 4000000, unit := "EMU" }

/-- The one-element `requests` array of `createTestSheetsChart`
(helpers.js lines 183-204). -/
def sheetsChartRequests (pageId spreadsheetId sheetChartId : String) : List SlidesRequest :=
  [ .createSheetsChart
      { objectId := "MyChart_01"
      , spreadsheetId := spreadsheetId
      , chartId := sheetChartId
      , linkingMode := "LINKED"
      , elementProperties :=
          { pageObjectId := pageId
          , size := { height := emu4M, width := emu4M }
          , transform :=
              { scaleX := 1, scaleY := 1
              , translateX := 100000, translateY := 100000, unit := "EMU" } } } ]

/-- `Helpers.createTestSheetsChart(...)` (helpers.js lines 176-217): one
presentations.batchUpdate call; on error rejects with it, on success
resolves with
`createSheetsChartResponse.data.replies[0].createSheetsChart.objectId`. -/
def Helpers.createTestSheetsChart (h : Helpers) (presentationId : String)
    (pageId : String) (spreadsheetId : String) (sheetChartId : String)
    (resp : Except JsError BatchUpdateResponse) : MethodRun (Option String) :=
  { calls := [.presentationsBatchUpdate presentationId
      (sheetsChartRequests pageId spreadsheetId sheetChartId)]
  , result :=
      match resp with
      | .error err => .error err
      | .ok r => .ok (r.data.replies.head?.bind (fun rep => rep.createSheetsChart))
  , state := h }

/-- The `spreadsheets.create` argument of `createTestSpreadsheet`
(helpers.js lines 226-233). -/
def spreadsheetCreateRequest : SpreadsheetCreateRequest :=
  { properties := { title := "Test Spreadsheet" }, fields := "spreadsheetId" }

/-- `Helpers.createTestSpreadsheet()` (helpers.js lines 223-238): one
spreadsheets.create call (denodeified); on error the promise rejects with
it, on success records the new id for cleanup and resolves with
`spreadsheet.data.spreadsheetId`. -/
def Helpers.createTestSpreadsheet (h : Helpers)
    (resp : Except JsError SpreadsheetResponse) : MethodRun String :=
  { calls := [.spreadsheetsCreate spreadsheetCreateRequest]
  , result :=
      match resp with
      | .error err => .error err
      | .ok spreadsheet => .ok spreadsheet.data.spreadsheetId
  , state :=
      match resp with
      | .error _ => h
      | .ok spreadsheet => h.deleteFileOnCleanup spreadsheet.data.spreadsheetId }

/-- The one-element `requests` array of `populateValues` (helpers.js
lines 251-267). -/
def populateValuesRequests : List SheetsRequest :=
  [ .repeatCell
      { range :=
          { sheetId := 0
          , startRowIndex := 0, endRowIndex := 15
          , startColumnIndex := 0, endColumnIndex := 15 }
      , cell := { userEnteredValue := { stringValue := "Hello" } }
      , fields := "userEnteredValue" } ]

/-- `Helpers.populateValues(spreadsheetId)` (helpers.js lines 245-271):
one spreadsheets.batchUpdate call; on error the promise rejects with it,
on success `.then(() => spreadsheetId)` resolves with the argument,
ignoring the response. -/
def Helpers.populateValues (h : Helpers) (spreadsheetId : String)
    (resp : Except JsError SheetsBatchUpdateResponse) : MethodRun String :=
  { calls := [.spreadsheetsBatchUpdate spreadsheetId populateValuesRequests]
  , result :=
      match resp with
      | .error err => .error err
      | .ok _ => .ok spreadsheetId
  , state := h }

/-- A settled promise: the time at which it settled and its outcome. -/
structure Settled (α : Type) where
  time : Nat
  result : Except JsError α

/-- Whether a settled promise was fulfilled. -/
def Settled.fulfilled {α : Type} (p : Settled α) : Bool :=
  match p.result with
  | .ok _ => true
  | .error _ => false

/-- The earliest rejection among a list of settled promises (ties broken
towards the front of the list), if any: `Promise.all` rejects with the
reason of the first promise to reject. -/
def firstRejection {α : Type} : List (Settled α) → Option (Nat × JsError)
  | [] => none
  | p :: ps =>
    match p.result with
    | .ok _ => firstRejection ps
    | .error e =>
      match firstRejection ps with
      | none => some (p.time, e)
      | some (t, e2) => if t < p.time then some (t, e2) else some (p.time, e)

/-- The fulfillment values of a list of settled promises. -/
def fulfilledValues {α : Type} : List (Settled α) → List α
  | [] => []
  | p :: ps =>
    match p.result with
    | .ok a => a :: fulfilledValues ps
    | .error _ => fulfilledValues ps

/-- The latest settle time among a list of settled promises. -/
def maxTime {α : Type} (ps : List (Settled α)) : Nat :=
  (ps.map Settled.time).foldr max 0

/-- ES `Promise.all` semantics: if every promise fulfills, fulfill with
the list of values once the last one settles; otherwise reject at the
first rejection, with its reason. -/
def promiseAll {α : Type} (ps : List (Settled α)) : Settled (List α) :=
  match firstRejection ps with
  | some (t, e) => { time := t, result := .error e }
  | none => { time := maxTime ps, result := .ok (fulfilledValues ps) }

/-- `Helpers.cleanup()` (helpers.js lines 62-65):
`Promise.all(this.filesToDelete.map((fileId) => driveService.files.delete({fileId})))`.
The environment `env` gives the settlement of the delete call for each
file id. Returns the issued calls and the settlement of the promise
`cleanup` returns; the helper state is not modified. -/
def Helpers.cleanup (h : Helpers) (env : String → Settled Unit) :
    List RpcCall × Settled (List Unit) :=
  (h.filesToDelete.map (fun fileId => RpcCall.driveFilesDelete fileId),
   promiseAll (h.filesToDelete.map env))

/-- One entry written to the console by the chat sample: `console.log` of
a response or `console.error` of an error. -/
inductive ConsoleEntry (ρ : Type) where
  | logged (r : ρ)
  | errored (e : JsError)

/-- `USER_AUTH_OAUTH_SCOPES` of the chat sample. -/
def chatUserAuthScopes : List String :=
  ["https://www.googleapis.com/auth/chat.memberships"]

/-- The `request` object literal of the chat sample (lines 30-41). -/
def chatUpdateMembershipRequest : UpdateMembershipRequest :=
  { membership :=
      { name := "spaces/SPACE_NAME/members/MEMBER_NAME"
      , role := "ROLE_NAME" }
  , updateMask := { paths := ["role"] } }

/-- `main()` of update-membership-user-cred.js together with its
top-level `main().catch(console.error)`: one updateMembership call
carrying the request; the response is logged, an error reaches the
top-level catch and is logged there via `console.error`. -/
def chatMain {ρ : Type} (resp : Except JsError ρ) :
    List RpcCall × List (ConsoleEntry ρ) :=
  ([RpcCall.chatUpdateMembership chatUpdateMembershipRequest],
   match resp with
   | .ok r => [.logged r]
   | .error e => [.errored e])

theorem firstRejection_eq_none {α : Type} (ps : List (Settled α))
    (hps : ∀ p ∈ ps, p.fulfilled = true) : firstRejection ps = none := by
  induction ps with
  | nil => rfl
  | cons p ps ih =>
    have hp : p.fulfilled = true := hps p (List.mem_cons_self _ _)
    have hrest := ih (fun q hq => hps q (List.mem_cons_of_mem _ hq))
    cases hres : p.result with
    | ok a => simp [firstRejection, hres, hrest]
    | error e => simp [Settled.fulfilled, hres] at hp

theorem time_le_maxTime {α : Type} {ps : List (Settled α)} {p : Settled α}
    (hp : p ∈ ps) : p.time ≤ maxTime ps := by
  induction ps with
  | nil => cases hp
  | cons q ps ih =>
    rcases List.mem_cons.mp hp with h | h
    · subst h
      exact le_max_left p.time (maxTime ps)
    · exact le_trans (ih h) (le_max_right q.time (maxTime ps))

/-- C1: the only mutable state of `Helpers` is `filesToDelete`: it is
empty at construction; each successful resource-creating call appends the
created identifier (so the list afterwards contains it), and a failed
invocation leaves the state unchanged. -/
theorem c1_filesToDelete_lifecycle :
    Helpers.new.filesToDelete = [] ∧
    (∀ (h : Helpers) (r : PresentationResponse),
      (h.createTestPresentation (.ok r)).state.filesToDelete
        = h.filesToDelete ++ [r.data.presentationId] ∧
      r.data.presentationId ∈ (h.createTestPresentation (.ok r)).state.filesToDelete) ∧
    (∀ (h : Helpers) (e : JsError), (h.createTestPresentation (.error e)).state = h) ∧
    (∀ (h : Helpers) (r : SpreadsheetResponse),
      (h.createTestSpreadsheet (.ok r)).state.filesToDelete
        = h.filesToDelete ++ [r.data.spreadsheetId] ∧
      r.data.spreadsheetId ∈ (h.createTestSpreadsheet (.ok r)).state.filesToDelete) ∧
    (∀ (h : Helpers) (e : JsError), (h.createTestSpreadsheet (.error e)).state = h) := by
  refine ⟨rfl, ?_, fun h e => rfl, ?_, fun h e => rfl⟩
  · intro h r
    exact ⟨rfl, by simp [Helpers.createTestPresentation, Helpers.deleteFileOnCleanup]⟩
  · intro h r
    exact ⟨rfl, by simp [Helpers.createTestSpreadsheet, Helpers.deleteFileOnCleanup]⟩

/-- C2: cleanup issues exactly one Drive files.delete per element of
`filesToDelete`, with that element as the fileId; when every delete
fulfills, the returned promise settles at the latest delete settle time,
hence only after every delete has settled. -/
theorem c2_cleanup_one_delete_per_id_awaited_jointly
    (h : Helpers) (env : String → Settled Unit)
    (hok : ∀ id ∈ h.filesToDelete, (env id).fulfilled = true) :
    (h.cleanup env).1 = h.filesToDelete.map (fun fileId => RpcCall.driveFilesDelete fileId) ∧
    (h.cleanup env).2.time = maxTime (h.filesToDelete.map env) ∧
    ∀ id ∈ h.filesToDelete, (env id).time ≤ (h.cleanup env).2.time := by
  have hnone : firstRejection (h.filesToDelete.map env) = none := by
    apply firstRejection_eq_none
    intro p hp
    rcases List.mem_map.mp hp with ⟨id, hid, rfl⟩
    exact hok id hid
  refine ⟨rfl, ?_, ?_⟩
  · simp [Helpers.cleanup, promiseAll, hnone]
  · intro id hid
    have hmem : env id ∈ h.filesToDelete.map env := List.mem_map_of_mem env hid
    have hle := time_le_maxTime hmem
    simpa [Helpers.cleanup, promiseAll, hnone] using hle

/-- Witness for C2: a helper tracking one file, whose delete fulfills at
time 4; cleanup settles at the latest delete time. -/
theorem c2_cleanup_witness :
    ((Helpers.new.deleteFileOnCleanup "a").cleanup
        (fun _ => { time := 4, result := Except.ok () })).2.time
      = maxTime ((Helpers.new.deleteFileOnCleanup "a").filesToDelete.map
        (fun _ => { time := 4, result := Except.ok () })) :=
  (c2_cleanup_one_delete_per_id_awaited_jointly
    (Helpers.new.deleteFileOnCleanup "a")
    (fun _ => { time := 4, result := Except.ok () })
    (fun _ _ => rfl)).2.1

/-- C3: reset leaves `filesToDelete` empty; cleanup consumes the pending
identifiers by issuing the delete for every element of the list. -/
theorem c3_reset_drains_cleanup_consumes (h : Helpers) (env : String → Settled Unit) :
    h.reset.filesToDelete = [] ∧
    (h.cleanup env).1 = h.filesToDelete.map (fun fileId => RpcCall.driveFilesDelete fileId) ∧
    ∀ id ∈ h.filesToDelete, RpcCall.driveFilesDelete id ∈ (h.cleanup env).1 := by
  refine ⟨rfl, rfl, ?_⟩
  intro id hid
  exact List.mem_map_of_mem _ hid

/-- Witness for C3: a helper tracking one file; its delete call is among
the calls cleanup issues. -/
theorem c3_cleanup_witness :
    RpcCall.driveFilesDelete "a" ∈
      ((Helpers.new.deleteFileOnCleanup "a").cleanup
        (fun _ => { time := 0, result := Except.ok () })).1 :=
  (c3_reset_drains_cleanup_consumes (Helpers.new.deleteFileOnCleanup "a")
    (fun _ => { time := 0, result := Except.ok () })).2.2 "a" (by decide)

/-- C4: a failed remote call rejects the pending promise with exactly the
received error (helper methods) or is logged at the top level (chat
main), and each invocation still issues exactly its one call (no
retry). -/
theorem c4_errors_unchanged_no_retry (h : Helpers) (e : JsError)
    (pid pgid ssid chartId sid layout : String) (num : Nat) :
    (h.createTestPresentation (.error e)).result = .error e ∧
    (h.createTestPresentation (.error e)).calls.length = 1 ∧
    (h.addSlides pid num layout (.error e)).result = .error e ∧
    (h.addSlides pid num layout (.error e)).calls.length = 1 ∧
    (h.createTestTextbox pid pgid (.error e)).result = .error e ∧
    (h.createTestTextbox pid pgid (.error e)).calls.length = 1 ∧
    (h.createTestSheetsChart pid pgid ssid chartId (.error e)).result = .error e ∧
    (h.createTestSheetsChart pid pgid ssid chartId (.error e)).calls.length = 1 ∧
    (h.createTestSpreadsheet (.error e)).result = .error e ∧
    (h.createTestSpreadsheet (.error e)).calls.length = 1 ∧
    (h.populateValues sid (.error e)).result = .error e ∧
    (h.populateValues sid (.error e)).calls.length = 1 ∧
    (@chatMain Unit (.error e)).2 = [ConsoleEntry.errored e] ∧
    (@chatMain Unit (.error e)).1.length = 1 :=
  ⟨rfl, rfl, rfl, rfl, rfl, rfl, rfl, rfl, rfl, rfl, rfl, rfl, rfl, rfl⟩

/-- C5: each sample script and helper convenience method issues exactly
one RPC carrying its single statically built payload; the batched edit
operations ride inside that one batchUpdate call. -/
theorem c5_single_rpc_per_invocation (h : Helpers)
    (r1 : Except JsError PresentationResponse)
    (r2 r3 r4 : Except JsError BatchUpdateResponse)
    (r5 : Except JsError SpreadsheetResponse)
    (r6 : Except JsError SheetsBatchUpdateResponse)
    (r7 : Except JsError Unit)
    (pid pgid ssid chartId sid layout : String) (num : Nat) :
    (h.createTestPresentation r1).calls
      = [.presentationsCreate { title := "Test Preso" }] ∧
    (h.addSlides pid num layout r2).calls
      = [.presentationsBatchUpdate pid (createSlideRequests num layout)] ∧
    (h.createTestTextbox pid pgid r3).calls
      = [.presentationsBatchUpdate pid (textboxRequests pgid)] ∧
    (textboxRequests pgid).length = 2 ∧
    (h.createTestSheetsChart pid pgid ssid chartId r4).calls
      = [.presentationsBatchUpdate pid (sheetsChartRequests pgid ssid chartId)] ∧
    (h.createTestSpreadsheet r5).calls = [.spreadsheetsCreate spreadsheetCreateRequest] ∧
    (h.populateValues sid r6).calls = [.spreadsheetsBatchUpdate sid populateValuesRequests] ∧
    (chatMain r7).1 = [.chatUpdateMembership chatUpdateMembershipRequest] :=
  ⟨rfl, rfl, rfl, rfl, rfl, rfl, rfl, rfl⟩

/-- C6: successful responses are read at the stated field paths:
`data.presentationId`, `data.spreadsheetId`,
`data.replies[0].createShape.objectId`, and the chat sample logs the
updateMembership response. -/
theorem c6_success_extraction_paths (h : Helpers) {ρ : Type}
    (pr : PresentationResponse) (sr : SpreadsheetResponse)
    (pid pgid oid : String) (c : Option String) (rest : List Reply) (m : ρ) :
    (h.createTestPresentation (.ok pr)).result = .ok pr.data.presentationId ∧
    (h.createTestSpreadsheet (.ok sr)).result = .ok sr.data.spreadsheetId ∧
    (h.createTestTextbox pid pgid
        (.ok { data := { replies :=
          { createShape := some oid, createSheetsChart := c } :: rest } })).result
      = .ok (some oid) ∧
    (chatMain (.ok m)).2 = [ConsoleEntry.logged m] :=
  ⟨rfl, rfl, rfl, rfl⟩

/-- C7: the chat sample's request carries a membership with fields name
and role, an updateMask whose paths is exactly the list of the one string
role, and is passed unmodified to the updateMembership call. -/
theorem c7_chat_request_shape {ρ : Type} (resp : Except JsError ρ) :
    chatUpdateMembershipRequest.membership.name
      = "spaces/SPACE_NAME/members/MEMBER_NAME" ∧
    chatUpdateMembershipRequest.membership.role = "ROLE_NAME" ∧
    chatUpdateMembershipRequest.updateMask.paths = ["role"] ∧
    (chatMain resp).1 = [RpcCall.chatUpdateMembership chatUpdateMembershipRequest] :=
  ⟨rfl, rfl, rfl, rfl⟩

/-- C8: addSlides builds exactly num createSlide requests whose objectIds
are slide_0 .. slide_(num-1) in order, and on success resolves with
exactly that list of ids, determined solely by num. -/
theorem c8_addSlides_ids_and_determinism (h h2 : Helpers)
    (pid pid2 layout layout2 : String) (num : Nat) (r r2 : BatchUpdateResponse) :
    (createSlideRequests num layout).length = num ∧
    createSlideRequests num layout
      = (slideIdsUpTo num).map (fun oid => SlidesRequest.createSlide
          { objectId := oid, slideLayoutReference := { predefinedLayout := layout } }) ∧
    slideIdsUpTo num = (List.range num).map (fun i => "slide_" ++ toString i) ∧
    (h.addSlides pid num layout (.ok r)).result = .ok (slideIdsUpTo num) ∧
    (h.addSlides pid num layout (.ok r)).result
      = (h2.addSlides pid2 num layout2 (.ok r2)).result := by
  refine ⟨?_, ?_, rfl, rfl, rfl⟩
  · simp [createSlideRequests]
  · unfold createSlideRequests slideIdsUpTo
    rw [List.map_map]
    rfl

/-- C9: reset and deleteFileOnCleanup touch only `filesToDelete`: the
three service handles are unchanged, reset leaves the list empty, and
deleteFileOnCleanup appends the id at the end. -/
theorem c9_reset_deleteFileOnCleanup_frame (h : Helpers) (id : String) :
    h.reset.driveService = h.driveService ∧
    h.reset.slidesService = h.slidesService ∧
    h.reset.sheetsService = h.sheetsService ∧
    h.reset.filesToDelete = [] ∧
    (h.deleteFileOnCleanup id).driveService = h.driveService ∧
    (h.deleteFileOnCleanup id).slidesService = h.slidesService ∧
    (h.deleteFileOnCleanup id).sheetsService = h.sheetsService ∧
    (h.deleteFileOnCleanup id).filesToDelete = h.filesToDelete ++ [id] :=
  ⟨rfl, rfl, rfl, rfl, rfl, rfl, rfl, rfl⟩

/-- C10: populateValues issues one batchUpdate with a single repeatCell
request over sheetId 0, rows 0..15 and columns 0..15 (a 15-by-15 range),
writing the string Hello with fields userEnteredValue, and on success
resolves with exactly the spreadsheetId argument. -/
theorem c10_populateValues_payload_and_result (h : Helpers) (sid : String)
    (resp : SheetsBatchUpdateResponse) :
    populateValuesRequests
      = [SheetsRequest.repeatCell
          { range := { sheetId := 0, startRowIndex := 0, endRowIndex := 15
                     , startColumnIndex := 0, endColumnIndex := 15 }
          , cell := { userEnteredValue := { stringValue := "Hello" } }
          , fields := "userEnteredValue" }] ∧
    (h.populateValues sid (.ok resp)).calls
      = [.spreadsheetsBatchUpdate sid populateValuesRequests] ∧
    (h.populateValues sid (.ok resp)).result = .ok sid :=
  ⟨rfl, rfl, rfl⟩

end GoogleSamples
